import Mathlib

/-!
# Verification of the cothority `network` transport layer

Shallow embedding of the transport layer (virtual/local transport, TCP
transport, shared `connQueue` primitive, retry policy) of the repository's
`network` package, together with theorems settling the specification claims.

Go maps are embedded as association lists; Go's mutation of shared state is
embedded as explicit state passing on a `LocalCtx` record that owns a heap of
queues (modelling the shared `*connQueue` pointers).  Go's `context.Context`
is embedded as a record carrying the cancellation flag; both `Receive`
implementations in the source ignore it, and so do their embeddings.
-/

set_option autoImplicit false

/-- Connection types (`ConnType` in the source).  `invalid` is the zero value. -/
inductive ConnType
  | invalid
  | Local
  | PlainTCP
deriving DecidableEq, Repr

/-- An `Address` carries a connection-type tag and a location string. -/
structure Address where
  connType : ConnType
  location : String
deriving DecidableEq, Repr

/-- The zero value of `Address` (in Go an empty address string). -/
def Address.empty : Address := ⟨ConnType.invalid, ""⟩

/-- A message body.  The source treats bodies as dynamically typed opaque
values; `typeId` models the reflection-derived registered type and `data`
the opaque payload bytes. -/
structure Body where
  typeId : Nat
  data : List Nat
deriving DecidableEq, Repr

/-- The zero value of `Body`. -/
def Body.empty : Body := ⟨0, []⟩

/-- Go `TypeFromData` resolves a body's registered message type (reflection
registry in the source). -/
def TypeFromData (b : Body) : Nat := b.typeId

/-- The message envelope (`Packet` in the source): type tag, opaque body and
the sender's address.  `From` is the Go field `From`; its zero value is the
empty address. -/
structure Packet where
  MsgType : Nat
  Msg : Body
  From : Address
deriving DecidableEq, Repr

/-- Go `EmptyApplicationMessage` : the zero `Packet` (name used by the TCP code). -/
def EmptyApplicationMessage : Packet := ⟨0, Body.empty, Address.empty⟩

/-- Go `EmptyApplicationPacket` : the zero `Packet` (name used by the local code). -/
def EmptyApplicationPacket : Packet := EmptyApplicationMessage

/-- The error taxonomy of the package plus free-form `fmt.Errorf` errors. -/
inductive NetError
  | ErrClosed
  | ErrCanceled
  | ErrEOF
  | ErrTemp
  | ErrTimeout
  | ErrUnknown
  | msg (s : String)
deriving DecidableEq, Repr

/-- Go `context.Context`, reduced to its cancellation flag. -/
structure Ctx where
  canceled : Bool
deriving DecidableEq, Repr

/-! ## Association lists embedding Go maps -/

/-- Lookup in an association list (Go `m[k]` with `ok`-check). -/
def assocFind {κ ν : Type} [DecidableEq κ] : List (κ × ν) → κ → Option ν
  | [], _ => none
  | (k', v') :: t, k => if k = k' then some v' else assocFind t k

/-- Update/insert in an association list (Go `m[k] = v`). -/
def assocSet {κ ν : Type} [DecidableEq κ] : List (κ × ν) → κ → ν → List (κ × ν)
  | [], k, v => [(k, v)]
  | (k', v') :: t, k, v => if k = k' then (k, v) :: t else (k', v') :: assocSet t k v

/-- Deletion from an association list (Go `delete(m, k)`). -/
def assocErase {κ ν : Type} [DecidableEq κ] : List (κ × ν) → κ → List (κ × ν)
  | [], _ => []
  | (k', v') :: t, k => if k = k' then t else (k', v') :: assocErase t k

theorem assocFind_set_self {κ ν : Type} [DecidableEq κ] (l : List (κ × ν)) (k : κ) (v : ν) :
    assocFind (assocSet l k v) k = some v := by
  induction l with
  | nil => simp [assocFind, assocSet]
  | cons h t ih =>
    obtain ⟨k', v'⟩ := h
    by_cases hk : k = k' <;> simp [assocFind, assocSet, hk, ih]

theorem assocFind_set_ne {κ ν : Type} [DecidableEq κ] (l : List (κ × ν)) (k k' : κ) (v : ν)
    (h : k ≠ k') : assocFind (assocSet l k' v) k = assocFind l k := by
  induction l with
  | nil => simp [assocFind, assocSet, h]
  | cons hd t ih =>
    obtain ⟨k₀, v₀⟩ := hd
    by_cases hk : k' = k₀
    · subst hk
      simp [assocFind, assocSet, h]
    · by_cases hk2 : k = k₀ <;> simp [assocFind, assocSet, hk, hk2, ih]

/-! ## connQueue: the closable blocking FIFO -/

/-- The shared queue primitive (`connQueue` in the source): an ordered list of
packets plus the closed flag, guarded in Go by a mutex/condition monitor. -/
structure connQueue where
  queue : List Packet
  isClosed : Bool
deriving DecidableEq, Repr

/-- Go `newConnQueue` : a fresh, open, empty queue. -/
def newConnQueue : connQueue := ⟨[], false⟩

/-- Go `connQueue.Push` : appends unless the queue is closed (no-op once closed). -/
def connQueue.Push (c : connQueue) (p : Packet) : connQueue :=
  if c.isClosed then c else { c with queue := c.queue ++ [p] }

/-- One-call outcome of `connQueue.Pop`: a packet together with the remaining
queue, an `ErrClosed` return, or a suspension on the condition variable
(`c.Wait()` with the queue empty and not closed). -/
inductive PopResult
  | ok (p : Packet) (rest : connQueue)
  | closed
  | blocked
deriving DecidableEq, Repr

/-- Go `connQueue.Pop`, following the source line by line: while the queue is
empty, return `ErrClosed` if closed else wait; once the queue is non-empty the
source re-checks `isClosed` and returns `ErrClosed` even when packets are
pending; otherwise it pops the head (FIFO). -/
def connQueue.Pop (c : connQueue) : PopResult :=
  match c.queue with
  | [] => if c.isClosed then .closed else .blocked
  | p :: rest => if c.isClosed then .closed else .ok p { c with queue := rest }

/-- Go `connQueue.Close` : sets the closed flag (and wakes a blocked `Pop`). -/
def connQueue.Close (c : connQueue) : connQueue := { c with isClosed := true }

/-! ## The virtual transport: LocalContext, LocalConn -/

/-- One direction of a virtual connection (`endpoint` in the source). -/
structure endpoint where
  addr : Address
  uid : Nat
deriving DecidableEq, Repr

/-- The virtual-network registry (`LocalContext`).  `store` is the heap of
queues (modelling the shared `*connQueue` pointers, addressed by `qid`);
`queues` is the Go `queues` map from endpoints to their queue; `listening`
maps addresses to accept-callback identifiers; `baseUid` is the uid counter.
`nextQid` is the allocator for heap addresses (pointer identity). -/
structure LocalCtx where
  store : List (Nat × connQueue)
  queues : List (endpoint × Nat)
  listening : List (Address × Nat)
  baseUid : Nat
  nextQid : Nat
deriving DecidableEq, Repr

/-- Go `NewLocalContext` : the empty registry. -/
def NewLocalContext : LocalCtx := ⟨[], [], [], 0, 0⟩

/-- Go `LocalContext.IsListening`. -/
def LocalCtx.IsListening (c : LocalCtx) (remote : Address) : Bool :=
  (assocFind c.listening remote).isSome

/-- Go `LocalContext.Listening` : records the accept callback for `addr`.  The
source performs a plain map assignment: no check, an existing entry is
replaced. -/
def LocalCtx.Listening (c : LocalCtx) (addr : Address) (fn : Nat) : LocalCtx :=
  { c with listening := assocSet c.listening addr fn }

/-- Go `LocalContext.StopListening`. -/
def LocalCtx.StopListening (c : LocalCtx) (addr : Address) : LocalCtx :=
  { c with listening := assocErase c.listening addr }

/-- A virtual connection: its two endpoints and the heap address of its own
(embedded) `connQueue`.  `locl` is the Go field `local` (a Lean keyword). -/
structure LocalConn where
  locl : endpoint
  remote : endpoint
  qid : Nat
deriving DecidableEq, Repr

/-- Result of a successful `LocalContext.Connect`: the outgoing conn returned
to the caller, the incoming conn handed to the accept callback, and the
identifier of the callback invoked (`go fn(incoming)`). -/
structure ConnectOk where
  outgoing : LocalConn
  incoming : LocalConn
  acceptCb : Nat
deriving DecidableEq, Repr

/-- The error produced by `LocalContext.Connect` for a non-listening remote. -/
def notListeningErr (locl remote : Address) : NetError :=
  .msg (locl.location ++ " can't connect to " ++ remote.location ++ ": it's not listening")

/-- Go `LocalContext.Connect`, following the source: if `remote` is not
listening, fail immediately (the check precedes every mutation, so the
returned state is the input state); otherwise allocate two fresh uids, build
the two endpoints and conns, register both queues, and hand the incoming conn
to the accept callback. -/
def LocalCtx.Connect (c : LocalCtx) (locl remote : Address) :
    Except NetError ConnectOk × LocalCtx :=
  match assocFind c.listening remote with
  | none => (.error (notListeningErr locl remote), c)
  | some fn =>
    let outE : endpoint := ⟨locl, c.baseUid⟩
    let incE : endpoint := ⟨remote, c.baseUid + 1⟩
    let outQ := c.nextQid
    let incQ := c.nextQid + 1
    let outgoing : LocalConn := ⟨outE, incE, outQ⟩
    let incoming : LocalConn := ⟨incE, outE, incQ⟩
    (.ok ⟨outgoing, incoming, fn⟩,
      { c with
        store := assocSet (assocSet c.store outQ newConnQueue) incQ newConnQueue
        queues := assocSet (assocSet c.queues outE outQ) incE incQ
        baseUid := c.baseUid + 2
        nextQid := c.nextQid + 2 })

/-- Go `LocalContext.Send` : pushes into the queue registered for endpoint `e`;
`ErrClosed` if no queue is registered.  (When `e` is registered its queue is
present in the heap; the defensive `ErrClosed` on a dangling `qid` is
unreachable under that invariant.) -/
def LocalCtx.Send (c : LocalCtx) (e : endpoint) (nm : Packet) : Except NetError LocalCtx :=
  match assocFind c.queues e with
  | none => .error .ErrClosed
  | some qid =>
    match assocFind c.store qid with
    | none => .error .ErrClosed
    | some q => .ok { c with store := assocSet c.store qid (q.Push nm) }

/-- Go `LocalContext.Close` : deletes the conn's own map entry, and if the remote
endpoint is still registered, deletes it too and closes its queue. -/
def LocalCtx.Close (c : LocalCtx) (conn : LocalConn) : LocalCtx :=
  let c1 := { c with queues := assocErase c.queues conn.locl }
  match assocFind c1.queues conn.remote with
  | none => c1
  | some rq =>
    let c2 := { c1 with queues := assocErase c1.queues conn.remote }
    match assocFind c2.store rq with
    | none => c2
    | some q => { c2 with store := assocSet c2.store rq q.Close }

/-- Go `LocalConn.Send` : builds the packet from the (pointer-dereferenced) body
and its reflected type and pushes it to the remote endpoint's queue.  As in
the source, the `From` field is never assigned and stays at its zero value,
and the context argument is unused. -/
def LocalConn.Send (cc : LocalConn) (g : Ctx) (st : LocalCtx) (msg : Body) :
    Except NetError LocalCtx :=
  let body := msg
  let typ := TypeFromData body
  let nm : Packet := { MsgType := typ, Msg := body, From := Address.empty }
  st.Send cc.remote nm

/-- One-call outcome of a `Receive`. -/
inductive ReceiveResult
  | ok (p : Packet) (st : LocalCtx)
  | err (e : NetError) (st : LocalCtx)
  | blocked
deriving DecidableEq, Repr

/-- Go `LocalConn.Receive` : `return cc.Pop()` on the conn's own queue; the
context argument is ignored by the source.  (A conn's embedded queue always
exists in the heap; the `blocked` on a dangling `qid` is unreachable under
that invariant.) -/
def LocalConn.Receive (cc : LocalConn) (g : Ctx) (st : LocalCtx) : ReceiveResult :=
  match assocFind st.store cc.qid with
  | none => .blocked
  | some q =>
    match q.Pop with
    | .ok p rest => .ok p { st with store := assocSet st.store cc.qid rest }
    | .closed => .err .ErrClosed st
    | .blocked => .blocked

/-- Go `LocalConn.Local`. -/
def LocalConn.Local (cc : LocalConn) : Address := cc.locl.addr

/-- Go `LocalConn.Remote`. -/
def LocalConn.Remote (cc : LocalConn) : Address := cc.remote.addr

/-- Go `LocalConn.Close` : closes the conn's own queue, then `ctx.Close` removes
both map entries and closes the remote queue. -/
def LocalConn.CloseConn (cc : LocalConn) (st : LocalCtx) : LocalCtx :=
  let st1 :=
    match assocFind st.store cc.qid with
    | none => st
    | some q => { st with store := assocSet st.store cc.qid q.Close }
  st1.Close cc

/-! ## LocalListener / LocalHost -/

/-- A virtual listener: the bound address, the listening flag and whether the
`quit` channel is open. -/
structure LocalListener where
  addr : Address
  listening : Bool
  quitOpen : Bool
deriving DecidableEq, Repr

/-- Go `LocalListener.bind` : rejects non-Local addresses, then rejects an
address that is already listening in the context; otherwise records the
address on the listener.  `bind` registers nothing in the context. -/
def LocalListener.bind (ll : LocalListener) (c : LocalCtx) (addr : Address) :
    Except NetError LocalListener :=
  if addr.connType ≠ ConnType.Local then
    .error (.msg "Wrong address type for local listener")
  else if c.IsListening addr then
    .error (.msg (addr.location ++ " is already listening: can't listen again"))
  else
    .ok { ll with addr := addr }

/-- Go `NewLocalListenerWithContext` : a fresh listener (open quit channel) bound
to `addr`. -/
def NewLocalListenerWithContext (c : LocalCtx) (addr : Address) :
    Except NetError LocalListener :=
  LocalListener.bind ⟨Address.empty, false, true⟩ c addr

/-- The state change performed by `LocalListener.Listen` before it blocks on
the quit channel: a fresh quit channel, registration of the accept callback
via `LocalContext.Listening` (plain map assignment) and the listening flag. -/
def LocalListener.Listen (ll : LocalListener) (c : LocalCtx) (fn : Nat) :
    LocalListener × LocalCtx :=
  ({ ll with listening := true, quitOpen := true }, c.Listening ll.addr fn)

/-- Go `LocalListener.Stop` : deregisters the address, closes the quit channel if
listening, and clears the listening flag. -/
def LocalListener.Stop (ll : LocalListener) (c : LocalCtx) : LocalListener × LocalCtx :=
  ({ ll with listening := false, quitOpen := ll.listening = false && ll.quitOpen },
    c.StopListening ll.addr)

/-- A virtual host: its own address (the listener part is not needed by the
claims about `Connect`). -/
structure LocalHost where
  addr : Address
deriving DecidableEq, Repr

/-- Events observable during a connection-establishment retry loop. -/
inductive RetryEvent
  | attempt
  | sleep (d : Nat)
deriving DecidableEq, Repr

/-- Number of connection attempts recorded in a trace. -/
def countAttempts (evs : List RetryEvent) : Nat :=
  (evs.filter fun e => match e with | .attempt => true | _ => false).length

/-- The retry loop of `LocalHost.Connect`: up to `n` more attempts; a failed
attempt records the error and sleeps `w` (`WaitRetry`) before the next one;
exhaustion returns the last recorded error. -/
def LocalHost.connectLoop (lh : LocalHost) (addr : Address) (w : Nat) :
    Nat → LocalCtx → Option NetError →
      (Option ConnectOk × Option NetError) × LocalCtx × List RetryEvent
  | 0, st, finalErr => ((none, finalErr), st, [])
  | n + 1, st, _ =>
    match st.Connect lh.addr addr with
    | (.ok co, st') => ((some co, none), st', [.attempt])
    | (.error e, st') =>
      let r := LocalHost.connectLoop lh addr w n st' (some e)
      (r.1, r.2.1, .attempt :: .sleep w :: r.2.2)

/-- Go `LocalHost.Connect` : rejects non-Local addresses before any attempt,
otherwise runs the bounded retry loop (`MaxRetryConnect` attempts, `WaitRetry`
delay; both configuration constants are parameters here). -/
def LocalHost.Connect (lh : LocalHost) (st : LocalCtx) (addr : Address) (maxR w : Nat) :
    (Option ConnectOk × Option NetError) × LocalCtx × List RetryEvent :=
  if addr.connType ≠ ConnType.Local then
    ((none, some (.msg "Can't connect to non-Local address")), st, [])
  else
    lh.connectLoop addr w maxR st none

/-- The trace of a fully failing local retry loop: attempt, sleep, attempt,
sleep, …  (the source sleeps after every failed attempt, the last included). -/
def attemptTrace (w : Nat) : Nat → List RetryEvent
  | 0 => []
  | n + 1 => .attempt :: .sleep w :: attemptTrace w n

/-! ## TCPListener lifecycle (Stop idempotence) -/

/-- The TCP listener state relevant to `Stop`: the `listening` flag and
whether the `quit` channel has been closed.  The quit/acknowledgement
handshake with the accept loop is abstracted as completing. -/
structure TCPListener where
  listening : Bool
  quitClosed : Bool
deriving DecidableEq, Repr

/-- Go `NewTCPListener` : not listening, fresh (open) quit channel. -/
def NewTCPListener : TCPListener := ⟨false, false⟩

/-- The state change performed by `TCPListener.listen` when it starts: the
listening flag is set and a fresh quit channel is installed. -/
def TCPListener.listenStart (t : TCPListener) : TCPListener :=
  { t with listening := true, quitClosed := false }

/-- Outcome of `TCPListener.Stop`: a normal return with the new state, or a
Go runtime panic. -/
inductive StopResult
  | ok (t : TCPListener)
  | panicked (m : String)
deriving DecidableEq, Repr

/-- Go `TCPListener.Stop`, following the source: if the listening flag is unset,
return nil; otherwise `close(t.quit)` — which panics if the channel is
already closed — then close the socket and poll for the accept loop's
acknowledgement (abstracted as completing) and return nil.  The source never
clears the `listening` flag. -/
def TCPListener.Stop (t : TCPListener) : StopResult :=
  if t.listening = false then .ok t
  else if t.quitClosed then .panicked "close of closed channel"
  else .ok { t with quitClosed := true }

/-! ## TCP connection: dial retry, framing, chunked send, receive -/

/-- The retry loop of `NewTCPConn`: `dial i` is the outcome of attempt `i`
(`none` = success).  A failed attempt sleeps `WaitRetry` in the error branch
and again at the bottom of the loop body; a successful attempt breaks
immediately.  Returns whether a connection was obtained, the last error, and
the event trace. -/
def tcpDialLoop (dial : Nat → Option String) (w : Nat) :
    Nat → Nat → Option String → Bool × Option String × List RetryEvent
  | _, 0, err => (false, err, [])
  | i, n + 1, _ =>
    match dial i with
    | some e =>
      let r := tcpDialLoop dial w (i + 1) n (some e)
      (r.1, r.2.1, .attempt :: .sleep w :: .sleep w :: r.2.2)
    | none => (true, none, [.attempt])

/-- Rendering of the final `err` inside `fmt.Errorf` (a `nil` error renders
as a placeholder; only reachable with zero configured attempts). -/
def optErrStr : Option String → String
  | some e => e
  | none => "<nil>"

/-- Go `NewTCPConn` : bounded dial retry; if no connection was obtained, returns
a new error wrapping the last dial error, as in the source's
`fmt.Errorf("Could not connect to %s: %s", address, err)`. -/
def NewTCPConn (dial : Nat → Option String) (address : String) (maxR w : Nat) :
    Except String Unit × List RetryEvent :=
  let r := tcpDialLoop dial w 0 maxR none
  if r.1 then (.ok (), r.2.2)
  else (.error ("Could not connect to " ++ address ++ ": " ++ optErrStr r.2.1), r.2.2)

/-- The trace of a fully failing TCP dial loop: each failed attempt is
followed by two sleeps (error-branch sleep plus bottom-of-loop sleep). -/
def tcpAttemptTrace (w : Nat) : Nat → List RetryEvent
  | 0 => []
  | n + 1 => .attempt :: .sleep w :: .sleep w :: tcpAttemptTrace w n

/-- Go `maxChunkSize` : how many bytes are written at once on the socket. -/
def maxChunkSize : Nat := 1400

/-- The successive socket writes performed by the send loop: each write takes
at most `maxChunkSize` bytes off the front of the remaining buffer, until the
buffer is exhausted.  The fuel argument (the buffer length suffices) is a
termination device; each iteration with a non-empty buffer consumes at least
one byte. -/
def chunkWritesAux : Nat → List Nat → List (List Nat)
  | 0, _ => []
  | _ + 1, [] => []
  | fuel + 1, b@(_ :: _) => b.take maxChunkSize :: chunkWritesAux fuel (b.drop maxChunkSize)

/-- The list of chunk writes for buffer `b`. -/
def chunkWrites (b : List Nat) : List (List Nat) := chunkWritesAux b.length b

/-- Big-endian fixed-width encoding of the `Size` length field (4 bytes). -/
def encodeSize (n : Nat) : List Nat :=
  [n / 2 ^ 24 % 256, n / 2 ^ 16 % 256, n / 2 ^ 8 % 256, n % 256]

/-- Decoding of the `Size` length field. -/
def decodeSize (b : List Nat) : Nat :=
  match b with
  | [a, b1, c, d] => ((a * 256 + b1) * 256 + c) * 256 + d
  | _ => 0

/-- Observable trace of `TCPConn.send`: the byte stream written to the socket
(length field first, then the chunks), the individual chunk writes, and the
list of increments applied to the transmitted-byte counter.  The source calls
`addWrittenBytes(packetSize)` once, after the loop. -/
structure SendTrace where
  stream : List Nat
  writes : List (List Nat)
  txIncs : List Nat
deriving DecidableEq, Repr

/-- Go `TCPConn.send` : writes the length field, then the buffer chunk by chunk,
then increments the transmitted-byte counter once by the full packet size. -/
def TCPConn.send (b : List Nat) : SendTrace :=
  { stream := encodeSize b.length ++ (chunkWrites b).flatten
    writes := chunkWrites b
    txIncs := [b.length] }

/-- Modelled from the spec: `NewNetworkMessage` (not under src) wraps a body
into a `Packet` carrying its reflected type tag; the spec says `Send`
"serializes `body` into a Packet". -/
def NewNetworkMessage (obj : Body) : Packet :=
  { MsgType := TypeFromData obj, Msg := obj, From := Address.empty }

/-- Modelled from the spec: `Packet.MarshalBinary` (not under src) serializes
the envelope — "a type tag identifying the payload schema, the opaque
payload" — as the type tag followed by the payload bytes. -/
def marshalPacket (p : Packet) : List Nat :=
  p.MsgType :: p.Msg.data

/-- Outcome of the envelope decoder: a decoded packet, a decode error, or a
decode panic escaping `UnmarshalBinary`. -/
inductive DecodeOutcome
  | ok (p : Packet)
  | err (e : String)
  | panicked (m : String)
deriving Repr

/-- Modelled from the spec: `Packet.UnmarshalBinary` (not under src) — the
inverse of `marshalPacket`: the first byte is the type tag, the remainder the
payload; an empty buffer is a decode error. -/
def unmarshalPacket (b : List Nat) : DecodeOutcome :=
  match b with
  | t :: d => .ok { MsgType := t, Msg := ⟨t, d⟩, From := Address.empty }
  | [] => .err "empty buffer"

/-- Go `TCPConn.Send` : converts the body to a network message, marshals it and
sends the bytes with `send`. -/
def TCPConn.Send (obj : Body) : SendTrace :=
  TCPConn.send (marshalPacket (NewNetworkMessage obj))

/-- Go `TCPConn.receive` : reads the fixed-width size field from the stream,
then loops reading until that many payload bytes have been accumulated. -/
def TCPConn.receiveBytes (stream : List Nat) : Except NetError (List Nat) :=
  if stream.length < 4 then .error .ErrEOF
  else
    let total := decodeSize (stream.take 4)
    let rest := stream.drop 4
    if rest.length < total then .error .ErrEOF
    else .ok (rest.take total)

/-- The body of `TCPConn.Receive` before the deferred `recover`: a transport
error is returned as is with the empty packet; a decode error is wrapped; a
decode panic propagates (the `.error` of the outer `Except`); on success the
packet's `From` field is set to the connection's remote endpoint. -/
def TCPConn.receiveInner (decode : List Nat → DecodeOutcome) (remote : Address)
    (recvResult : Except NetError (List Nat)) :
    Except String (Packet × Option NetError) :=
  match recvResult with
  | .error e => .ok (EmptyApplicationMessage, some e)
  | .ok buff =>
    match decode buff with
    | .panicked m => .error m
    | .err e => .ok (EmptyApplicationMessage, some (.msg ("Error unmarshaling message: " ++ e)))
    | .ok am => .ok ({ am with From := remote }, none)

/-- Go `TCPConn.Receive` : the deferred `recover` converts a decode panic into a
normal return of the empty packet and a generic receive error; the total
return type witnesses that no panic escapes to the caller.  The context
argument is ignored by the source. -/
def TCPConn.Receive (g : Ctx) (decode : List Nat → DecodeOutcome) (remote : Address)
    (recvResult : Except NetError (List Nat)) : Packet × Option NetError :=
  match TCPConn.receiveInner decode remote recvResult with
  | .error m => (EmptyApplicationMessage, some (.msg ("Error Received message: " ++ m)))
  | .ok r => r

/-! ## Supporting lemmas -/

theorem chunkWritesAux_flatten (fuel : Nat) : ∀ b : List Nat, b.length ≤ fuel →
    (chunkWritesAux fuel b).flatten = b := by
  induction fuel with
  | zero =>
    intro b hb
    have : b = [] := List.eq_nil_of_length_eq_zero (Nat.le_zero.mp hb)
    subst this
    rfl
  | succ fuel ih =>
    intro b hb
    match b with
    | [] => rfl
    | x :: xs =>
      have hlen : ((x :: xs).drop maxChunkSize).length ≤ fuel := by
        simp only [List.length_drop, List.length_cons] at *
        simp only [maxChunkSize]
        omega
      simp only [chunkWritesAux, List.flatten_cons, ih _ hlen, List.take_append_drop]

theorem chunkWrites_flatten (b : List Nat) : (chunkWrites b).flatten = b :=
  chunkWritesAux_flatten b.length b le_rfl

theorem chunkWritesAux_bounded (fuel : Nat) : ∀ b : List Nat,
    (chunkWritesAux fuel b).all (fun w => w.length ≤ maxChunkSize) = true := by
  induction fuel with
  | zero => intro b; rfl
  | succ fuel ih =>
    intro b
    match b with
    | [] => rfl
    | x :: xs =>
      simp only [chunkWritesAux, List.all_cons, ih, Bool.and_true, decide_eq_true_eq]
      simp [List.length_take]

theorem chunkWrites_bounded (b : List Nat) :
    (chunkWrites b).all (fun w => w.length ≤ maxChunkSize) = true :=
  chunkWritesAux_bounded b.length b

theorem decodeSize_encodeSize (n : Nat) (h : n < 2 ^ 32) :
    decodeSize (encodeSize n) = n := by
  simp only [decodeSize, encodeSize]
  omega

theorem LocalCtx.connect_not_listening (c : LocalCtx) (la ra : Address)
    (h : assocFind c.listening ra = none) :
    c.Connect la ra = (.error (notListeningErr la ra), c) := by
  simp [LocalCtx.Connect, h]

theorem connectLoop_not_listening (lh : LocalHost) (addr : Address) (w : Nat)
    (n : Nat) (st : LocalCtx) (h : assocFind st.listening addr = none) :
    ∀ fe : Option NetError,
      lh.connectLoop addr w n st fe =
        ((none, if n = 0 then fe else some (notListeningErr lh.addr addr)), st,
          attemptTrace w n) := by
  induction n with
  | zero => intro fe; simp [LocalHost.connectLoop, attemptTrace]
  | succ n ih =>
    intro fe
    simp only [LocalHost.connectLoop, LocalCtx.connect_not_listening st lh.addr addr h,
      ih (some (notListeningErr lh.addr addr))]
    cases n <;> simp [attemptTrace]

theorem countAttempts_attemptTrace (w n : Nat) : countAttempts (attemptTrace w n) = n := by
  induction n with
  | zero => rfl
  | succ n ih => simp only [attemptTrace, countAttempts, List.filter] at *; simp [ih]

theorem tcpDialLoop_all_fail (dial : Nat → Option String) (es : Nat → String) (w : Nat)
    (hd : ∀ i, dial i = some (es i)) (n : Nat) :
    ∀ (i : Nat) (fe : Option String),
      tcpDialLoop dial w i n fe =
        (false, (if n = 0 then fe else some (es (i + n - 1))), tcpAttemptTrace w n) := by
  induction n with
  | zero => intro i fe; simp [tcpDialLoop, tcpAttemptTrace]
  | succ n ih =>
    intro i fe
    simp only [tcpDialLoop, hd i, ih (i + 1)]
    cases n with
    | zero => simp [tcpAttemptTrace]
    | succ m =>
      have h2 : i + 1 + (m + 1) - 1 = i + (m + 1 + 1) - 1 := by omega
      simp [tcpAttemptTrace, h2]

theorem countAttempts_tcpAttemptTrace (w n : Nat) :
    countAttempts (tcpAttemptTrace w n) = n := by
  induction n with
  | zero => rfl
  | succ n ih => simp only [tcpAttemptTrace, countAttempts, List.filter] at *; simp [ih]

/-! ## Claim theorems -/

/-- C2 (counterexample): a closed `connQueue` that still holds a pending
packet: `Pop` returns `ErrClosed` although the queue is not empty, so the
pending packet enqueued before the close is not drainable. -/
theorem c2_pop_pending_after_close_cex :
    connQueue.Pop ⟨[⟨1, ⟨2, [3]⟩, Address.empty⟩], true⟩ = PopResult.closed ∧
    (⟨[⟨1, ⟨2, [3]⟩, Address.empty⟩], true⟩ : connQueue).queue ≠ [] := by
  exact ⟨rfl, by simp⟩

/-- C2 (amended): before `Close`, `Pop` drains the queue in FIFO order
(returning the oldest entry); after `Close`, `Pop` returns `ErrClosed`
immediately — even on a queue that still holds packets enqueued before the
close, which are therefore dropped, not drained — and a closed empty queue
also reports `ErrClosed`. -/
theorem c2_close_drops_pending (c : connQueue) (p : Packet) (rest : List Packet)
    (hOpen : c.isClosed = false) (hQ : c.queue = p :: rest) :
    c.Pop = PopResult.ok p { c with queue := rest } ∧
    c.Close.Pop = PopResult.closed ∧
    connQueue.Pop ⟨[], true⟩ = PopResult.closed := by
  obtain ⟨q, cl⟩ := c
  simp only at hOpen hQ
  subst hOpen hQ
  exact ⟨rfl, rfl, rfl⟩

/-- C2 (witness for `c2_close_drops_pending`). -/
theorem c2_close_drops_pending_witness :
    (⟨[⟨7, ⟨2, [3]⟩, Address.empty⟩], false⟩ : connQueue).isClosed = false ∧
    (⟨[⟨7, ⟨2, [3]⟩, Address.empty⟩], false⟩ : connQueue).queue =
      ⟨7, ⟨2, [3]⟩, Address.empty⟩ :: [] ∧
    (connQueue.Pop ⟨[⟨7, ⟨2, [3]⟩, Address.empty⟩], false⟩ =
        PopResult.ok ⟨7, ⟨2, [3]⟩, Address.empty⟩ ⟨[], false⟩ ∧
      (connQueue.Close ⟨[⟨7, ⟨2, [3]⟩, Address.empty⟩], false⟩).Pop = PopResult.closed ∧
      connQueue.Pop ⟨[], true⟩ = PopResult.closed) :=
  ⟨rfl, rfl, c2_close_drops_pending _ _ _ rfl rfl⟩

/-- C3 (code bug evaluation): start listening, then call `Stop` twice.  The
first `Stop` returns normally but leaves the `listening` flag set (the source
never clears it); the second `Stop` therefore reaches `close(t.quit)` on the
already-closed quit channel and panics. -/
theorem c3_second_stop_panics :
    TCPListener.Stop (TCPListener.listenStart NewTCPListener) =
      StopResult.ok { listening := true, quitClosed := true } ∧
    TCPListener.Stop { listening := true, quitClosed := true } =
      StopResult.panicked "close of closed channel" :=
  ⟨rfl, rfl⟩

/-- C5 (counterexample): a `LocalConn` whose queue holds a packet, receiving
under an already-cancelled context: `Receive` returns the queued packet as if
no cancellation occurred, not `ErrCanceled`. -/
theorem c5_receive_cancelled_cex :
    (⟨true⟩ : Ctx).canceled = true ∧
    LocalConn.Receive ⟨⟨⟨ConnType.Local, "A"⟩, 0⟩, ⟨⟨ConnType.Local, "B"⟩, 1⟩, 0⟩ ⟨true⟩
        ⟨[(0, ⟨[⟨1, ⟨2, [3]⟩, Address.empty⟩], false⟩)], [], [], 2, 2⟩ =
      ReceiveResult.ok ⟨1, ⟨2, [3]⟩, Address.empty⟩ ⟨[(0, ⟨[], false⟩)], [], [], 2, 2⟩ :=
  ⟨rfl, rfl⟩

/-- C5 (amended): both `Receive` implementations ignore the caller-supplied
context entirely — the result is identical for any two contexts, cancelled or
not, so a cancelled context never yields `ErrCanceled` (that error only
arises from the classification of underlying I/O errors). -/
theorem c5_receive_ignores_context (cc : LocalConn) (st : LocalCtx) (g1 g2 : Ctx)
    (decode : List Nat → DecodeOutcome) (remote : Address)
    (recv : Except NetError (List Nat)) :
    LocalConn.Receive cc g1 st = LocalConn.Receive cc g2 st ∧
    TCPConn.Receive g1 decode remote recv = TCPConn.Receive g2 decode remote recv :=
  ⟨rfl, rfl⟩

/-- C8 (confirmed): `LocalContext.Connect` with a non-listening remote fails
with the "not listening" error and returns the context unchanged — the check
precedes the uid allocation, the queue-map insertions and the callback
invocation, so no uid is consumed, no queue entry is added and no accept
callback is produced (the `.error` result carries no `ConnectOk`). -/
theorem c8_connect_not_listening (c : LocalCtx) (la ra : Address)
    (h : assocFind c.listening ra = none) :
    c.Connect la ra = (.error (notListeningErr la ra), c) :=
  LocalCtx.connect_not_listening c la ra h

/-- C8 (witness for `c8_connect_not_listening`). -/
theorem c8_connect_not_listening_witness :
    assocFind NewLocalContext.listening ⟨ConnType.Local, "B"⟩ = none ∧
    NewLocalContext.Connect ⟨ConnType.Local, "A"⟩ ⟨ConnType.Local, "B"⟩ =
      (.error (notListeningErr ⟨ConnType.Local, "A"⟩ ⟨ConnType.Local, "B"⟩),
        NewLocalContext) :=
  ⟨rfl, c8_connect_not_listening _ _ _ rfl⟩

/-- C9 (confirmed): a panic escaping the envelope decoder inside
`TCPConn.Receive` is caught by the deferred `recover` and converted into a
normal return of the empty packet and the generic receive error; the panic is
never propagated to the caller (`TCPConn.Receive` is total). -/
theorem c9_decode_panic_caught (g : Ctx) (decode : List Nat → DecodeOutcome)
    (remote : Address) (buff : List Nat) (m : String)
    (h : decode buff = DecodeOutcome.panicked m) :
    TCPConn.Receive g decode remote (.ok buff) =
      (EmptyApplicationMessage, some (.msg ("Error Received message: " ++ m))) := by
  simp [TCPConn.Receive, TCPConn.receiveInner, h]

/-- C9 (witness for `c9_decode_panic_caught`). -/
theorem c9_decode_panic_caught_witness :
    (fun _ : List Nat => DecodeOutcome.panicked "runtime error") [5] =
      DecodeOutcome.panicked "runtime error" ∧
    TCPConn.Receive ⟨false⟩ (fun _ => DecodeOutcome.panicked "runtime error")
        Address.empty (.ok [5]) =
      (EmptyApplicationMessage,
        some (.msg ("Error Received message: " ++ "runtime error"))) :=
  ⟨rfl, c9_decode_panic_caught _ _ _ _ _ rfl⟩

/-- C10 (confirmed): a non-Local address is rejected at the virtual
transport's public surface: `LocalHost.Connect` fails before any attempt (the
retry trace is empty and the context is unchanged), and `LocalListener.bind`
fails with the wrong-address-type error without touching the listener or the
context (it returns before recording anything). -/
theorem c10_non_local_rejected (lh : LocalHost) (st : LocalCtx) (addr : Address)
    (maxR w : Nat) (ll : LocalListener) (c : LocalCtx)
    (h : addr.connType ≠ ConnType.Local) :
    lh.Connect st addr maxR w =
      ((none, some (.msg "Can't connect to non-Local address")), st, []) ∧
    ll.bind c addr = .error (.msg "Wrong address type for local listener") := by
  constructor
  · simp [LocalHost.Connect, h]
  · simp [LocalListener.bind, h]

/-- C10 (witness for `c10_non_local_rejected`). -/
theorem c10_non_local_rejected_witness :
    (⟨ConnType.PlainTCP, "x"⟩ : Address).connType ≠ ConnType.Local ∧
    (LocalHost.Connect ⟨⟨ConnType.Local, "A"⟩⟩ NewLocalContext ⟨ConnType.PlainTCP, "x"⟩ 3 1 =
        ((none, some (.msg "Can't connect to non-Local address")), NewLocalContext, []) ∧
      LocalListener.bind ⟨Address.empty, false, true⟩ NewLocalContext ⟨ConnType.PlainTCP, "x"⟩ =
        .error (.msg "Wrong address type for local listener")) :=
  ⟨by decide, c10_non_local_rejected _ _ _ _ _ _ _ (by decide)⟩

/-- C4 (counterexample): two `LocalListener`s are created for the same
address before either starts listening — both binds succeed, since the
bind-time check sees a context in which the address is not yet listening.
The first `Listen` registers callback `1`; the second `Listen` then registers
callback `2` through `LocalContext.Listening`, which performs a plain map
assignment: the second registration of an already-listening address does not
fail, and the first callback is silently replaced (no step of the scenario
can return an error — `Listen`'s registration has no error result). -/
theorem c4_listen_replaces_cex :
    NewLocalListenerWithContext NewLocalContext ⟨ConnType.Local, "a"⟩ =
      .ok ⟨⟨ConnType.Local, "a"⟩, false, true⟩ ∧
    assocFind
      ((LocalListener.Listen ⟨⟨ConnType.Local, "a"⟩, false, true⟩
          (LocalListener.Listen ⟨⟨ConnType.Local, "a"⟩, false, true⟩
            NewLocalContext 1).2 2).2).listening
      ⟨ConnType.Local, "a"⟩ = some 2 ∧
    (2 : Nat) ≠ 1 := by
  refine ⟨rfl, rfl, by decide⟩

/-- C4 (amended): for an Address already listening, creating a new
`LocalListener` (whose `bind` checks `IsListening`) fails with the
already-listening error; but `LocalContext.Listening` itself performs no
check, so registering through it — as `Listen` does — succeeds and replaces
the previously registered callback. -/
theorem c4_bind_rejects_double_listen (c : LocalCtx) (addr : Address) (cb fn : Nat)
    (hT : addr.connType = ConnType.Local)
    (hL : assocFind c.listening addr = some cb) :
    NewLocalListenerWithContext c addr =
      .error (.msg (addr.location ++ " is already listening: can't listen again")) ∧
    assocFind (c.Listening addr fn).listening addr = some fn := by
  constructor
  · simp [NewLocalListenerWithContext, LocalListener.bind, hT, LocalCtx.IsListening, hL]
  · simp [LocalCtx.Listening, assocFind_set_self]

/-- C4 (witness for `c4_bind_rejects_double_listen`). -/
theorem c4_bind_rejects_double_listen_witness :
    (⟨ConnType.Local, "a"⟩ : Address).connType = ConnType.Local ∧
    assocFind (⟨[], [], [(⟨ConnType.Local, "a"⟩, 1)], 0, 0⟩ : LocalCtx).listening
      ⟨ConnType.Local, "a"⟩ = some 1 ∧
    (NewLocalListenerWithContext ⟨[], [], [(⟨ConnType.Local, "a"⟩, 1)], 0, 0⟩
        ⟨ConnType.Local, "a"⟩ =
      .error (.msg ((⟨ConnType.Local, "a"⟩ : Address).location ++
        " is already listening: can't listen again")) ∧
    assocFind
      ((⟨[], [], [(⟨ConnType.Local, "a"⟩, 1)], 0, 0⟩ : LocalCtx).Listening
        ⟨ConnType.Local, "a"⟩ 2).listening ⟨ConnType.Local, "a"⟩ = some 2) :=
  ⟨rfl, rfl, c4_bind_rejects_double_listen _ _ _ _ rfl rfl⟩

/-- C6 (counterexample): sending a 3000-byte payload performs three chunk
writes of 1400, 1400 and 200 bytes, but the transmitted-byte counter receives
a single increment of 3000 (the source calls `addWrittenBytes(packetSize)`
once, after the loop), not one increment per chunk write. -/
theorem chunkWritesAux_nil (fuel : Nat) : chunkWritesAux fuel ([] : List Nat) = [] := by
  cases fuel <;> rfl

theorem chunkWritesAux_replicate (fuel n : Nat) (hn : 0 < n) :
    chunkWritesAux (fuel + 1) (List.replicate n (0 : Nat)) =
      List.replicate (min maxChunkSize n) 0 ::
        chunkWritesAux fuel (List.replicate (n - maxChunkSize) 0) := by
  obtain ⟨m, rfl⟩ := Nat.exists_eq_succ_of_ne_zero (Nat.pos_iff_ne_zero.mp hn)
  rw [List.replicate_succ]
  simp only [chunkWritesAux]
  rw [← List.replicate_succ, List.take_replicate, List.drop_replicate]

theorem chunkWrites_replicate_3000 :
    chunkWrites (List.replicate 3000 (0 : Nat)) =
      [List.replicate 1400 (0 : Nat), List.replicate 1400 0, List.replicate 200 0] := by
  rw [chunkWrites, List.length_replicate]
  rw [chunkWritesAux_replicate 2999 3000 (by norm_num)]
  rw [show min maxChunkSize 3000 = 1400 from by norm_num [maxChunkSize],
    show (3000 : Nat) - maxChunkSize = 1600 from by norm_num [maxChunkSize]]
  rw [chunkWritesAux_replicate 2998 1600 (by norm_num)]
  rw [show min maxChunkSize 1600 = 1400 from by norm_num [maxChunkSize],
    show (1600 : Nat) - maxChunkSize = 200 from by norm_num [maxChunkSize]]
  rw [chunkWritesAux_replicate 2997 200 (by norm_num)]
  rw [show min maxChunkSize 200 = 200 from by norm_num [maxChunkSize],
    show (200 : Nat) - maxChunkSize = 0 from by norm_num [maxChunkSize],
    List.replicate_zero, chunkWritesAux_nil]

theorem c6_tx_single_increment_cex :
    (TCPConn.send (List.replicate 3000 0)).writes.map List.length = [1400, 1400, 200] ∧
    (TCPConn.send (List.replicate 3000 0)).txIncs = [3000] ∧
    ([3000] : List Nat) ≠ [1400, 1400, 200] := by
  have hw : ∀ b : List Nat, (TCPConn.send b).writes = chunkWrites b := fun _ => rfl
  have ht : ∀ b : List Nat, (TCPConn.send b).txIncs = [b.length] := fun _ => rfl
  refine ⟨?_, ?_, by decide⟩
  · rw [hw, chunkWrites_replicate_3000]
    simp only [List.map_cons, List.map_nil, List.length_replicate]
  · rw [ht, List.length_replicate]

/-- C6 (amended): the payload is written in chunks of at most 1400 bytes
each, the loop continuing until all `N` bytes are written (the chunks
concatenate back to the payload); the transmitted-byte counter is then
incremented once by the full packet size `N` — a single increment totalling
`N`, not one increment per chunk. -/
theorem c6_chunked_send (b : List Nat) :
    (TCPConn.send b).writes.flatten = b ∧
    ((TCPConn.send b).writes.all fun w => w.length ≤ maxChunkSize) = true ∧
    (TCPConn.send b).txIncs = [b.length] ∧
    (TCPConn.send b).txIncs.sum = b.length := by
  refine ⟨chunkWrites_flatten b, chunkWrites_bounded b, rfl, ?_⟩
  simp [TCPConn.send]

/-- C7 (counterexample): with two failing dial attempts whose errors are
`"e0"` and `"e1"`, `NewTCPConn` does not return the final attempt's error
`"e1"`: it returns a new error wrapping it. -/
theorem c7_tcp_wraps_final_error_cex :
    (NewTCPConn (fun i => if i = 0 then some "e0" else some "e1") "a" 2 5).1 =
      .error "Could not connect to a: e1" ∧
    ("Could not connect to a: e1" : String) ≠ "e1" := by
  refine ⟨rfl, by decide⟩

/-- C7 (amended): against a non-listening / always-unreachable target, both
connectors make exactly the configured number of attempts with the configured
delay between consecutive attempts (the TCP dial loop sleeps twice per failed
attempt, so at least the configured delay); `LocalHost.Connect` returns the
final attempt's error unchanged, while `NewTCPConn` returns a new error whose
message wraps the final dial error. -/
theorem c7_bounded_retry (lh : LocalHost) (st : LocalCtx) (addr : Address)
    (maxR w : Nat) (dial : Nat → Option String) (es : Nat → String) (address : String)
    (h0 : 0 < maxR)
    (hT : addr.connType = ConnType.Local)
    (hL : assocFind st.listening addr = none)
    (hd : ∀ i, dial i = some (es i)) :
    lh.Connect st addr maxR w =
      ((none, some (notListeningErr lh.addr addr)), st, attemptTrace w maxR) ∧
    countAttempts (attemptTrace w maxR) = maxR ∧
    NewTCPConn dial address maxR w =
      (.error ("Could not connect to " ++ address ++ ": " ++ es (maxR - 1)),
        tcpAttemptTrace w maxR) ∧
    countAttempts (tcpAttemptTrace w maxR) = maxR := by
  have hmz : maxR ≠ 0 := by omega
  refine ⟨?_, countAttempts_attemptTrace w maxR, ?_, countAttempts_tcpAttemptTrace w maxR⟩
  · simp only [LocalHost.Connect, hT, ne_eq, not_true_eq_false, if_false,
      connectLoop_not_listening lh addr w maxR st hL none, hmz]
  · unfold NewTCPConn
    rw [tcpDialLoop_all_fail dial es w hd maxR 0 none]
    simp [hmz, optErrStr]

/-- C7 (witness for `c7_bounded_retry`). -/
theorem c7_bounded_retry_witness :
    0 < 2 ∧
    (⟨ConnType.Local, "B"⟩ : Address).connType = ConnType.Local ∧
    assocFind NewLocalContext.listening ⟨ConnType.Local, "B"⟩ = none ∧
    (LocalHost.Connect ⟨⟨ConnType.Local, "A"⟩⟩ NewLocalContext ⟨ConnType.Local, "B"⟩ 2 5 =
        ((none, some (notListeningErr ⟨ConnType.Local, "A"⟩ ⟨ConnType.Local, "B"⟩)),
          NewLocalContext, attemptTrace 5 2) ∧
      countAttempts (attemptTrace 5 2) = 2 ∧
      NewTCPConn (fun i => some (if i = 0 then "e0" else "e1")) "a" 2 5 =
        (.error ("Could not connect to " ++ "a" ++ ": " ++
          (fun i : Nat => if i = 0 then "e0" else "e1") (2 - 1)),
          tcpAttemptTrace 5 2) ∧
      countAttempts (tcpAttemptTrace 5 2) = 2) :=
  ⟨by decide, rfl, rfl,
    c7_bounded_retry ⟨⟨ConnType.Local, "A"⟩⟩ NewLocalContext ⟨ConnType.Local, "B"⟩ 2 5
      (fun i => some (if i = 0 then "e0" else "e1"))
      (fun i => if i = 0 then "e0" else "e1") "a"
      (by decide) rfl rfl (fun i => rfl)⟩

theorem receiveBytes_frame (n : Nat) (l : List Nat) (hn : l.length = n) (h : n < 2 ^ 32) :
    TCPConn.receiveBytes (encodeSize n ++ l) = .ok l := by
  have he : (encodeSize n).length = 4 := rfl
  have htake : (encodeSize n ++ l).take 4 = encodeSize n := by
    rw [← he, List.take_left]
  have hdrop : (encodeSize n ++ l).drop 4 = l := by
    rw [← he, List.drop_left]
  have hlen : ¬(encodeSize n ++ l).length < 4 := by
    simp [List.length_append, he]
  simp only [TCPConn.receiveBytes, htake, hdrop, decodeSize_encodeSize n h, hn,
    if_neg hlen, lt_irrefl, if_false]
  simp [List.take_of_length_le hn.le]

/-- Scenario composition for the virtual transport (the spec's §8 scenario):
connect `aAddr` to the listening `bAddr`, send one body on the outgoing conn,
receive on the incoming conn, and return the received packet. -/
def roundTripFrom (c : LocalCtx) (aAddr bAddr : Address) (body : Body) : Option Packet :=
  match c.Connect aAddr bAddr with
  | (.error _, _) => none
  | (.ok co, st1) =>
    match co.outgoing.Send ⟨false⟩ st1 body with
    | .error _ => none
    | .ok st2 =>
      match co.incoming.Receive ⟨false⟩ st2 with
      | .ok p _ => some p
      | _ => none

/-- C1 (counterexample): virtual pair with `B` listening; `A` sends
`{msgType = 1, body = "ping"}`; the accept side's `Receive` returns a packet
whose `from` field is the zero Address, not `A.Local() = A` — the virtual
`Send` never assigns the `From` field. -/
theorem c1_from_not_sender_cex :
    roundTripFrom ⟨[], [], [(⟨ConnType.Local, "B"⟩, 7)], 0, 0⟩
        ⟨ConnType.Local, "A"⟩ ⟨ConnType.Local, "B"⟩ ⟨1, [112, 105, 110, 103]⟩ =
      some ⟨1, ⟨1, [112, 105, 110, 103]⟩, Address.empty⟩ ∧
    Address.empty ≠ (⟨ConnType.Local, "A"⟩ : Address) := by
  exact ⟨rfl, by decide⟩

/-- C1 (amended): on a connected virtual pair the accept side's `Receive`
returns a packet with the msgType and byte-exact body of the sent message,
but with `from` equal to the zero Address (never assigned by the virtual
`Send`), not `A.Local()`.  On the socket transport the framed stream decodes
back to the same msgType and body, and `Receive` sets the packet's `from` to
the connection's remote endpoint (which for an accepted socket is the
dialling peer's address). -/
theorem c1_round_trip (c : LocalCtx) (aAddr bAddr : Address) (cb : Nat) (body : Body)
    (g1 g2 g3 : Ctx) (remote : Address) (tb : Body)
    (hB : assocFind c.listening bAddr = some cb)
    (hlen : tb.data.length + 1 < 2 ^ 32) :
    (∃ co st1 st2 pkt st3,
      c.Connect aAddr bAddr = (.ok co, st1) ∧
      co.outgoing.Send g1 st1 body = .ok st2 ∧
      co.outgoing.Local = aAddr ∧
      co.incoming.Receive g2 st2 = ReceiveResult.ok pkt st3 ∧
      pkt.MsgType = TypeFromData body ∧ pkt.Msg = body ∧ pkt.From = Address.empty) ∧
    TCPConn.Receive g3 unmarshalPacket remote
        (TCPConn.receiveBytes (TCPConn.Send tb).stream) =
      ({ MsgType := TypeFromData tb, Msg := tb, From := remote }, none) := by
  constructor
  · refine ⟨⟨⟨⟨aAddr, c.baseUid⟩, ⟨bAddr, c.baseUid + 1⟩, c.nextQid⟩,
      ⟨⟨bAddr, c.baseUid + 1⟩, ⟨aAddr, c.baseUid⟩, c.nextQid + 1⟩, cb⟩,
      { c with
        store := assocSet (assocSet c.store c.nextQid newConnQueue)
          (c.nextQid + 1) newConnQueue
        queues := assocSet (assocSet c.queues ⟨aAddr, c.baseUid⟩ c.nextQid)
          ⟨bAddr, c.baseUid + 1⟩ (c.nextQid + 1)
        baseUid := c.baseUid + 2
        nextQid := c.nextQid + 2 },
      { c with
        store := assocSet
          (assocSet (assocSet c.store c.nextQid newConnQueue)
            (c.nextQid + 1) newConnQueue)
          (c.nextQid + 1) ⟨[⟨TypeFromData body, body, Address.empty⟩], false⟩
        queues := assocSet (assocSet c.queues ⟨aAddr, c.baseUid⟩ c.nextQid)
          ⟨bAddr, c.baseUid + 1⟩ (c.nextQid + 1)
        baseUid := c.baseUid + 2
        nextQid := c.nextQid + 2 },
      ⟨TypeFromData body, body, Address.empty⟩,
      { c with
        store := assocSet
          (assocSet
            (assocSet (assocSet c.store c.nextQid newConnQueue)
              (c.nextQid + 1) newConnQueue)
            (c.nextQid + 1) ⟨[⟨TypeFromData body, body, Address.empty⟩], false⟩)
          (c.nextQid + 1) ⟨[], false⟩
        queues := assocSet (assocSet c.queues ⟨aAddr, c.baseUid⟩ c.nextQid)
          ⟨bAddr, c.baseUid + 1⟩ (c.nextQid + 1)
        baseUid := c.baseUid + 2
        nextQid := c.nextQid + 2 },
      ?_, ?_, rfl, ?_, rfl, rfl, rfl⟩
    · simp only [LocalCtx.Connect, hB]
    · simp only [LocalConn.Send, LocalCtx.Send, assocFind_set_self]
      simp [connQueue.Push, newConnQueue]
    · simp [LocalConn.Receive, assocFind_set_self, connQueue.Pop]
  · obtain ⟨ti, da⟩ := tb
    have hm : marshalPacket (NewNetworkMessage ⟨ti, da⟩) = ti :: da := rfl
    have hs : (TCPConn.Send ⟨ti, da⟩).stream =
        encodeSize (ti :: da).length ++ (ti :: da) := by
      show (TCPConn.send (marshalPacket (NewNetworkMessage ⟨ti, da⟩))).stream = _
      rw [hm]
      show encodeSize (ti :: da).length ++ (chunkWrites (ti :: da)).flatten = _
      rw [chunkWrites_flatten]
    rw [hs, receiveBytes_frame (ti :: da).length (ti :: da) rfl
      (by simpa using hlen)]
    simp [TCPConn.Receive, TCPConn.receiveInner, unmarshalPacket, TypeFromData]

/-- C1 (witness for `c1_round_trip`). -/
theorem c1_round_trip_witness :
    assocFind (⟨[], [], [(⟨ConnType.Local, "B"⟩, 7)], 0, 0⟩ : LocalCtx).listening
      ⟨ConnType.Local, "B"⟩ = some 7 ∧
    (⟨2, [9]⟩ : Body).data.length + 1 < 2 ^ 32 ∧
    ((∃ co st1 st2 pkt st3,
      (⟨[], [], [(⟨ConnType.Local, "B"⟩, 7)], 0, 0⟩ : LocalCtx).Connect
          ⟨ConnType.Local, "A"⟩ ⟨ConnType.Local, "B"⟩ = (.ok co, st1) ∧
      co.outgoing.Send ⟨false⟩ st1 ⟨1, [112, 105, 110, 103]⟩ = .ok st2 ∧
      co.outgoing.Local = ⟨ConnType.Local, "A"⟩ ∧
      co.incoming.Receive ⟨true⟩ st2 = ReceiveResult.ok pkt st3 ∧
      pkt.MsgType = TypeFromData ⟨1, [112, 105, 110, 103]⟩ ∧
      pkt.Msg = ⟨1, [112, 105, 110, 103]⟩ ∧ pkt.From = Address.empty) ∧
    TCPConn.Receive ⟨false⟩ unmarshalPacket ⟨ConnType.PlainTCP, "A"⟩
        (TCPConn.receiveBytes (TCPConn.Send ⟨2, [9]⟩).stream) =
      ({ MsgType := TypeFromData ⟨2, [9]⟩, Msg := ⟨2, [9]⟩,
          From := ⟨ConnType.PlainTCP, "A"⟩ }, none)) :=
  ⟨rfl, by decide,
    c1_round_trip ⟨[], [], [(⟨ConnType.Local, "B"⟩, 7)], 0, 0⟩
      ⟨ConnType.Local, "A"⟩ ⟨ConnType.Local, "B"⟩ 7 ⟨1, [112, 105, 110, 103]⟩
      ⟨false⟩ ⟨true⟩ ⟨false⟩ ⟨ConnType.PlainTCP, "A"⟩ ⟨2, [9]⟩ rfl (by decide)⟩
